import Mathlib

/-!
Shallow embedding of the knowledge-graph visualization engine
(`src/web_app/static/js/knowledge-graph.js`).

State held in the JS module globals `network`, `nodes`, `edges`,
`graphData` is modelled by the record `GraphState`; DOM side effects
(camera focus, detail panel, alerts, file download, fit animation) are
modelled as an emitted `Event` list.  The vis-network `DataSet` is
modelled as a plain list in insertion order; `DataSet.update` with a
patch is modelled by mapping the patched fields onto the record with
the matching id, which is exactly what the code's per-node
`nodes.update({...})` calls amount to.  JSON serialization of the
export download is modelled at the value level (the downloaded
document is the `ExportResult` value that would be stringified).
The vis library is assumed present, so network initialization
succeeds on the first successful load.
-/

/-- Entity-type color table, from the `typeColors` constant (lines 9-18). -/
def typeColors : List (String × String) :=
  [("公司/组织", "#FF6B6B"),
   ("人物", "#4ECDC4"),
   ("产品/服务", "#45B7D1"),
   ("技术/概念", "#FFA07A"),
   ("地点", "#98D8C8"),
   ("时间", "#DDA15E"),
   ("项目/方案", "#F7DC6F"),
   ("Unknown", "#B8B8B8")]

/-- Embedding of the expression `typeColors[type] || typeColors['Unknown']`
used at lines 141, 259 and 282 of knowledge-graph.js. -/
def colorFor (t : String) : String :=
  match typeColors.lookup t with
  | some c => c
  | none => "#B8B8B8"

/-- Embedding of JS `String.prototype.includes` on character lists:
`listIncludes needle hay` is true iff `needle` occurs contiguously in `hay`. -/
def listIncludes (needle hay : List Char) : Bool :=
  match hay with
  | [] => needle.isEmpty
  | _ :: t => needle.isPrefixOf hay || listIncludes needle t

/-- Embedding of `hay.includes(needle)` on strings. -/
def strIncludes (hay needle : String) : Bool :=
  listIncludes needle.toList hay.toList

/-- Embedding of JS `toLowerCase` (ASCII case folding; identity on the
CJK characters appearing in the data, as in JS). -/
def lcase (s : String) : String :=
  (s.toList.map Char.toLower).asString

/-- Embedding of JS `String.prototype.trim`. -/
def jsTrim (s : String) : String :=
  ((s.toList.dropWhile Char.isWhitespace).reverse.dropWhile
    Char.isWhitespace).reverse.asString

/-- Raw node record of the consumed graph export (§6 of the spec). -/
structure RawNode where
  id : Nat
  label : String
  type : String
  description : Option String
  source_document : Option String
deriving DecidableEq, Repr

/-- Raw edge record of the consumed graph export. -/
structure RawEdge where
  source : Nat
  target : Nat
  relation : String
  description : Option String
deriving DecidableEq, Repr

/-- Response payload of `/api/knowledge-graph/export`.  `nodes = none`
(resp. `edges = none`) models a payload whose `nodes` (resp. `edges`)
field is absent or not an array, on which the conversion `result.nodes.map`
at line 137 (resp. `result.edges.map` at line 148) throws. -/
structure ExportResult where
  success : Bool
  nodes : Option (List RawNode)
  edges : Option (List RawEdge)
  nodes_count : Option Nat
  edges_count : Option Nat
  error : Option String
deriving DecidableEq, Repr

/-- Node record of the vis `DataSet`, as built at lines 137-145.
`borderWidth` starts at the configured default 2 (options line 45)
and is only changed by `searchEntity` updates. -/
structure VisNode where
  id : Nat
  label : String
  title : String
  color : String
  type : String
  description : Option String
  source_document : Option String
  borderWidth : Nat
deriving DecidableEq, Repr

/-- Edge record of the vis `DataSet`, as built at lines 148-154.
`efrom`/`eto` stand for the JS fields `from`/`to` (`from` is a Lean
keyword). -/
structure VisEdge where
  id : Nat
  efrom : Nat
  eto : Nat
  label : String
  title : String
deriving DecidableEq, Repr

/-- Statistics written to the DOM by `updateStats` (lines 179-186). -/
structure GraphStats where
  nodeCount : Nat
  edgeCount : Nat
  typeCount : Nat
deriving DecidableEq, Repr

/-- Observable side effects of the engine. -/
inductive Event where
  | focus (id : Nat)
  | showDetails (id : Nat)
  | alert (msg : String)
  | download (data : ExportResult)
  | fit
deriving DecidableEq, Repr

/-- Module state: the globals `network`, `nodes`, `edges`, `graphData`
(lines 3-6) together with the displayed statistics.  `network : Bool`
records whether the vis network has been initialized. -/
structure GraphState where
  network : Bool
  nodes : Option (List VisNode)
  edges : Option (List VisEdge)
  graphData : Option ExportResult
  stats : Option GraphStats
deriving DecidableEq, Repr

/-- State before any load: all four globals are null. -/
def initialState : GraphState :=
  { network := false, nodes := none, edges := none, graphData := none,
    stats := none }

/-- Conversion of one raw node (lines 137-145): title is
`type + newline + (description or empty)`, color via the type table. -/
def mkVisNode (n : RawNode) : VisNode :=
  { id := n.id, label := n.label,
    title := n.type ++ "\n" ++ n.description.getD "",
    color := colorFor n.type,
    type := n.type, description := n.description,
    source_document := n.source_document,
    borderWidth := 2 }

/-- Conversion of one raw edge with its index (lines 148-154): the id is
the per-snapshot sequential index; title falls back to the relation. -/
def mkVisEdge (i : Nat) (e : RawEdge) : VisEdge :=
  { id := i, efrom := e.source, eto := e.target,
    label := e.relation, title := e.description.getD e.relation }

/-- Embedding of `updateStats` (lines 179-186): node and edge counts
come from the payload fields `nodes_count` / `edges_count` (falsy
fallback 0); the type count is the size of the set of node types. -/
def updateStats (resp : ExportResult) (rawNodes : List RawNode) : GraphStats :=
  { nodeCount := resp.nodes_count.getD 0,
    edgeCount := resp.edges_count.getD 0,
    typeCount := (rawNodes.map RawNode.type).dedup.length }

/-- Embedding of the response-handling part of `loadGraph`
(lines 128-175), applied to an already-parsed payload.  Mirrors the
statement order of the source: on `success == false` it alerts and
returns with no state change; otherwise `graphData = result` is
assigned first (line 134), then the node and edge conversions run —
if either array is missing the conversion throws into the `catch`
(lines 171-175), leaving `nodes`/`edges`/`network`/stats unchanged but
`graphData` already replaced; on full success both `DataSet`s are
rebuilt, statistics recomputed, and the network initialized (first
load) or fed the new data (`setData`). -/
def loadGraph (resp : ExportResult) (s : GraphState) : GraphState × List Event :=
  if resp.success = false then
    (s, [Event.alert ("加载失败: " ++ resp.error.getD "未知错误")])
  else
    let s1 := { s with graphData := some resp }
    match resp.nodes, resp.edges with
    | some rawNodes, some rawEdges =>
        let nodesArray := rawNodes.map mkVisNode
        let edgesArray := rawEdges.enum.map (fun p => mkVisEdge p.1 p.2)
        ({ s1 with nodes := some nodesArray, edges := some edgesArray,
                   stats := some (updateStats resp rawNodes),
                   network := true }, [])
    | _, _ =>
        (s1, [Event.alert "加载失败: TypeError"])

/-- Embedding of `loadGraph` including the parse step: a network error
or JSON parse failure (lines 125-126 throwing) reaches the `catch`
before any assignment, leaving the state untouched. -/
def loadGraphResponse (resp : Except String ExportResult) (s : GraphState) :
    GraphState × List Event :=
  match resp with
  | Except.error msg => (s, [Event.alert ("加载失败: " ++ msg)])
  | Except.ok r => loadGraph r s

/-- Match test of `searchEntity` (lines 271-272): case-insensitive
substring on the label, or on the description when present. -/
def nodeMatches (keyword : String) (n : VisNode) : Bool :=
  strIncludes (lcase n.label) keyword ||
  (match n.description with
   | some d => strIncludes (lcase d) keyword
   | none => false)

/-- Ids collected into `foundNodes` during the scan of `searchEntity`
(lines 269-286): the ids of the nodes passing the match test, in store
order. -/
def foundIds (keyword : String) (ns : List VisNode) : List Nat :=
  (ns.filter (fun n => nodeMatches keyword n)).map VisNode.id

/-- Embedding of `searchEntity` (lines 250-299).  The raw input value is
trimmed and lower-cased; an empty keyword resets every node's color
(only the color — the update patch at lines 257-260 carries no
`borderWidth` field); a non-empty keyword highlights matches
(red, border 4) and resets non-matches (type color, border 2); if
exactly one node matched and the network exists, the camera focuses it
and its detail panel opens. -/
def searchEntity (q : String) (s : GraphState) : GraphState × List Event :=
  let keyword := lcase (jsTrim q)
  if keyword = "" then
    match s.nodes with
    | some ns =>
        ({ s with nodes := some (ns.map (fun n => { n with color := colorFor n.type })) }, [])
    | none => (s, [])
  else
    match s.nodes with
    | none => (s, [])
    | some ns =>
        let ns2 := ns.map (fun n =>
          if nodeMatches keyword n then
            { n with color := "#FF0000", borderWidth := 4 }
          else
            { n with color := colorFor n.type, borderWidth := 2 })
        let found := foundIds keyword ns
        let s2 := { s with nodes := some ns2 }
        if found.length = 1 && s.network then
          (s2, [Event.focus (found.headD 0), Event.showDetails (found.headD 0)])
        else
          (s2, [])

/-- Embedding of the connected-edge query of `showEntityDetails`
(lines 194-196): all edges touching the node. -/
def connectedEdges (es : List VisEdge) (nodeId : Nat) : List VisEdge :=
  es.filter (fun e => e.efrom = nodeId || e.eto = nodeId)

/-- Outgoing edges of a node (line 198). -/
def outgoingOf (es : List VisEdge) (nodeId : Nat) : List VisEdge :=
  (connectedEdges es nodeId).filter (fun e => e.efrom = nodeId)

/-- Incoming edges of a node (line 199). -/
def incomingOf (es : List VisEdge) (nodeId : Nat) : List VisEdge :=
  (connectedEdges es nodeId).filter (fun e => e.eto = nodeId)

/-- Embedding of `fitGraph` (lines 302-311): a no-op unless the network
is initialized. -/
def fitGraph (s : GraphState) : GraphState × List Event :=
  if s.network then (s, [Event.fit]) else (s, [])

/-- Embedding of `exportGraph` (lines 314-330): before any load it
alerts and downloads nothing; otherwise it downloads the cached
`graphData` payload verbatim. -/
def exportGraph (s : GraphState) : GraphState × List Event :=
  match s.graphData with
  | none => (s, [Event.alert "请先加载图谱"])
  | some g => (s, [Event.download g])

/-- Loader state for the concurrency model: the graph state plus the
number of in-flight `loadGraph` fetches. -/
structure LoaderState where
  graph : GraphState
  pending : Nat
deriving DecidableEq, Repr

/-- Loader state before any reload. -/
def initLoader : LoaderState :=
  { graph := initialState, pending := 0 }

/-- Synchronous prefix of `loadGraph` (lines 121-126): it shows the
loading indicator and unconditionally issues a fetch — the function
consults no in-flight flag, so every call adds one pending request. -/
def startReload (s : LoaderState) : LoaderState :=
  { s with pending := s.pending + 1 }

/-- Completion of one in-flight fetch: the response handler runs
against the globals as they are at completion time. -/
def completeReload (resp : Except String ExportResult) (s : LoaderState) :
    LoaderState × List Event :=
  match s.pending with
  | 0 => (s, [])
  | n + 1 =>
      let r := loadGraphResponse resp s.graph
      ({ graph := r.1, pending := n }, r.2)

/-- Event classifiers used to count observable effects. -/
def isFocusEv : Event → Bool
  | Event.focus _ => true
  | _ => false

def isDetailsEv : Event → Bool
  | Event.showDetails _ => true
  | _ => false

def isDownloadEv : Event → Bool
  | Event.download _ => true
  | _ => false

/-! Concrete fixtures, taken from the scenarios of §8 of the spec. -/

/-- Two-node export of the spec scenarios: Acme (公司/组织) employs
Alice (人物). -/
def aliceResp : ExportResult :=
  { success := true,
    nodes := some
      [{ id := 1, label := "Acme", type := "公司/组织",
         description := none, source_document := none },
       { id := 2, label := "Alice", type := "人物",
         description := some "a person", source_document := none }],
    edges := some
      [{ source := 1, target := 2, relation := "雇用", description := none }],
    nodes_count := some 2, edges_count := some 1, error := none }

/-- State after successfully loading `aliceResp`. -/
def loadedState : GraphState := (loadGraph aliceResp initialState).1

/-- State after searching for "alice" in the loaded graph: node 2 is
highlighted with border width 4. -/
def afterSearch : GraphState := (searchEntity "alice" loadedState).1

/-- Two-node export whose single edge references the nonexistent node 99. -/
def danglingResp : ExportResult :=
  { success := true,
    nodes := some
      [{ id := 1, label := "Acme", type := "公司/组织",
         description := none, source_document := none },
       { id := 2, label := "Alice", type := "人物",
         description := none, source_document := none }],
    edges := some
      [{ source := 99, target := 2, relation := "雇用", description := none }],
    nodes_count := some 2, edges_count := some 1, error := none }

/-- Export with a single self-loop edge on node 1. -/
def selfLoopResp : ExportResult :=
  { success := true,
    nodes := some
      [{ id := 1, label := "Acme", type := "公司/组织",
         description := none, source_document := none }],
    edges := some
      [{ source := 1, target := 1, relation := "自指", description := none }],
    nodes_count := some 1, edges_count := some 1, error := none }

/-- Success-flagged payload missing its nodes and edges arrays: the
conversion at line 137 throws on it. -/
def malformedResp : ExportResult :=
  { success := true, nodes := none, edges := none,
    nodes_count := none, edges_count := none, error := none }

/-- Successful export carrying no `nodes_count`/`edges_count` fields. -/
def noCountResp : ExportResult :=
  { success := true,
    nodes := some
      [{ id := 1, label := "Acme", type := "公司/组织",
         description := none, source_document := none },
       { id := 2, label := "Alice", type := "人物",
         description := none, source_document := none }],
    edges := some [],
    nodes_count := none, edges_count := none, error := none }

/-! Claim C1. -/

/-- C1 counterexample: loading the 2-node snapshot whose single edge
references nonexistent node 99 yields 2 nodes and 1 edge — the dangling
edge is kept, not excluded, and the state carries no dangling-edge
counter, contradicting the claimed "0 edges, dangling count 1". -/
theorem load_keeps_dangling_edge_cex :
    ((loadGraph danglingResp initialState).1.nodes.getD []).length = 2 ∧
    ((loadGraph danglingResp initialState).1.edges.getD []).length = 1 ∧
    ¬ ((loadGraph danglingResp initialState).1.edges.getD []).length = 0 := by
  exact ⟨rfl, rfl, by decide⟩

/-- C1 (amended): load converts and keeps every edge of the export in
order, regardless of whether its endpoints exist among the nodes — no
edge is excluded and no dangling-edge counter exists. -/
theorem load_converts_all_edges (resp : ExportResult) (s : GraphState)
    (ns : List RawNode) (es : List RawEdge)
    (hs : resp.success = true) (hn : resp.nodes = some ns)
    (he : resp.edges = some es) :
    (loadGraph resp s).1.edges = some (es.enum.map (fun p => mkVisEdge p.1 p.2)) ∧
    ((loadGraph resp s).1.edges.getD []).length = es.length ∧
    (loadGraph resp s).1.nodes = some (ns.map mkVisNode) := by
  simp [loadGraph, hs, hn, he]

/-- Witness for `load_converts_all_edges` at the dangling-edge export. -/
theorem load_converts_all_edges_witness :
    (loadGraph danglingResp initialState).1.edges =
      some ((( [{ source := 99, target := 2, relation := "雇用",
                  description := none }] : List RawEdge)).enum.map
        (fun p => mkVisEdge p.1 p.2)) ∧
    ((loadGraph danglingResp initialState).1.edges.getD []).length =
      ([{ source := 99, target := 2, relation := "雇用",
          description := none }] : List RawEdge).length ∧
    (loadGraph danglingResp initialState).1.nodes =
      some ((danglingResp.nodes.getD []).map mkVisNode) :=
  load_converts_all_edges danglingResp initialState
    (danglingResp.nodes.getD []) _ rfl rfl rfl

/-! Claim C2. -/

/-- C2: for a non-empty (after trimming) query on a loaded state, when
exactly one node matches, the engine emits exactly one camera-focus
event and one detail-panel event, both on that node; with zero or
two-or-more matches it emits no event at all. -/
theorem searchEntity_focus_threshold (q : String) (s : GraphState)
    (ns : List VisNode) (hn : s.nodes = some ns) (hw : s.network = true)
    (hk : ¬ lcase (jsTrim q) = "") :
    (∀ x, foundIds (lcase (jsTrim q)) ns = [x] →
        (searchEntity q s).2 = [Event.focus x, Event.showDetails x] ∧
        ((searchEntity q s).2.filter isFocusEv).length = 1 ∧
        ((searchEntity q s).2.filter isDetailsEv).length = 1) ∧
    (¬ (foundIds (lcase (jsTrim q)) ns).length = 1 →
        (searchEntity q s).2 = []) := by
  constructor
  · intro x hx
    simp [searchEntity, hn, hw, hk, hx, isFocusEv, isDetailsEv]
  · intro hl
    simp [searchEntity, hn, hw, hk, hl]

/-- Witness for `searchEntity_focus_threshold`: searching "alice" in
the loaded Acme/Alice graph matches only node 2 and emits exactly one
focus and one detail-panel event on it. -/
theorem searchEntity_focus_threshold_witness :
    (searchEntity "alice" loadedState).2 =
      [Event.focus 2, Event.showDetails 2] ∧
    (((searchEntity "alice" loadedState).2.filter isFocusEv).length = 1) ∧
    (((searchEntity "alice" loadedState).2.filter isDetailsEv).length = 1) :=
  (searchEntity_focus_threshold "alice" loadedState
    (loadedState.nodes.getD []) rfl rfl (by decide)).1 2 (by decide)

/-! Claim C3. -/

/-- C3 counterexample: after highlighting node 2 with `search("alice")`
(border width 4), clearing the query with `search("")` restores the
colors but leaves node 2's border width at 4, not at the default 2 —
the empty-query reset patch carries no `borderWidth` field. -/
theorem search_empty_keeps_border_cex :
    ((searchEntity "" afterSearch).1.nodes.getD []).map VisNode.borderWidth
      = [2, 4] ∧
    ((searchEntity "" afterSearch).1.nodes.getD []).map VisNode.color
      = [colorFor "公司/组织", colorFor "人物"] ∧
    ¬ ((searchEntity "" afterSearch).1.nodes.getD []).map VisNode.borderWidth
      = [2, 2] := by
  exact ⟨rfl, rfl, by decide⟩

/-- C3 (amended): search with an empty or whitespace-only query restores
every node's color to `colorFor(type)` (the type table with the Unknown
fallback) and emits no event, but leaves every node's border width
unchanged rather than restoring it to the default. -/
theorem search_empty_resets_colors (q : String) (s : GraphState)
    (ns : List VisNode) (hn : s.nodes = some ns)
    (hk : lcase (jsTrim q) = "") :
    (searchEntity q s).1.nodes =
      some (ns.map (fun n => { n with color := colorFor n.type })) ∧
    ((searchEntity q s).1.nodes.getD []).map VisNode.borderWidth =
      ns.map VisNode.borderWidth ∧
    (searchEntity q s).2 = [] := by
  refine ⟨?_, ?_, ?_⟩ <;> simp [searchEntity, hk, hn, List.map_map, Function.comp]

/-- Witness for `search_empty_resets_colors` at a whitespace-only query
on the highlighted state. -/
theorem search_empty_resets_colors_witness :
    (searchEntity "  " afterSearch).1.nodes =
      some ((afterSearch.nodes.getD []).map
        (fun n => { n with color := colorFor n.type })) ∧
    ((searchEntity "  " afterSearch).1.nodes.getD []).map VisNode.borderWidth =
      (afterSearch.nodes.getD []).map VisNode.borderWidth ∧
    (searchEntity "  " afterSearch).2 = [] :=
  search_empty_resets_colors "  " afterSearch
    (afterSearch.nodes.getD []) rfl (by decide)

/-! Claim C4. -/

/-- Helper: the scanning implementation of `includes` decides the
contiguous-substring relation. -/
theorem listIncludes_iff (needle hay : List Char) :
    listIncludes needle hay = true ↔ needle <:+: hay := by
  induction hay with
  | nil => simp [listIncludes, List.isEmpty_iff, List.infix_nil]
  | cons a t ih =>
      simp [listIncludes, Bool.or_eq_true, List.isPrefixOf_iff_prefix, ih,
        List.infix_cons_iff]

/-- Spec-side reading of the description clause: the keyword occurs in
the lower-cased description when a description is present. -/
def descMatches (keyword : String) (n : VisNode) : Prop :=
  match n.description with
  | some d => keyword.toList <:+: (lcase d).toList
  | none => False

/-- C4: on a loaded state, a node passes the non-empty-query match test
iff the lower-cased query occurs as a contiguous substring of the
lower-cased label, or of the lower-cased description when present; the
resulting store highlights exactly the matches (red, border 4) and
resets every non-match (type color, border 2).  The hypothesis
`jsTrim q = q` says the query carries no surrounding whitespace, so
the keyword the code derives is exactly the lower-cased query. -/
theorem searchEntity_match_semantics (q : String) (s : GraphState)
    (ns : List VisNode) (hn : s.nodes = some ns) (ht : jsTrim q = q)
    (hk : ¬ lcase q = "") :
    (∀ n : VisNode, nodeMatches (lcase q) n = true ↔
        ((lcase q).toList <:+: (lcase n.label).toList ∨
         descMatches (lcase q) n)) ∧
    (searchEntity q s).1.nodes =
      some (ns.map (fun n =>
        if nodeMatches (lcase q) n then
          { n with color := "#FF0000", borderWidth := 4 }
        else
          { n with color := colorFor n.type, borderWidth := 2 })) := by
  constructor
  · intro n
    cases hd : n.description <;>
      simp [nodeMatches, strIncludes, listIncludes_iff, descMatches, hd]
  · unfold searchEntity
    rw [ht]
    simp only [hk, if_false, hn]
    split <;> rfl

/-- Witness for `searchEntity_match_semantics`: the query "alice"
matches the Alice node of the loaded Acme/Alice graph via its label,
and the store after the search highlights node 2 and resets node 1. -/
theorem searchEntity_match_semantics_witness :
    (nodeMatches (lcase "alice")
        (mkVisNode { id := 2, label := "Alice", type := "人物",
                     description := some "a person",
                     source_document := none }) = true ↔
      ((lcase "alice").toList <:+:
        (lcase (mkVisNode { id := 2, label := "Alice", type := "人物",
                            description := some "a person",
                            source_document := none }).label).toList ∨
       descMatches (lcase "alice")
        (mkVisNode { id := 2, label := "Alice", type := "人物",
                     description := some "a person",
                     source_document := none }))) ∧
    (searchEntity "alice" loadedState).1.nodes =
      some ((loadedState.nodes.getD []).map (fun n =>
        if nodeMatches (lcase "alice") n then
          { n with color := "#FF0000", borderWidth := 4 }
        else
          { n with color := colorFor n.type, borderWidth := 2 })) :=
  ⟨(searchEntity_match_semantics "alice" loadedState
      (loadedState.nodes.getD []) rfl (by decide) (by decide)).1 _,
   (searchEntity_match_semantics "alice" loadedState
      (loadedState.nodes.getD []) rfl (by decide) (by decide)).2⟩

/-! Claim C5. -/

/-- C5 counterexample: loading the snapshot with a self-loop on node 1
puts its single edge into both the outgoing and the incoming sequence,
so the split overlaps and is not a partition. -/
theorem neighbors_self_loop_overlap_cex :
    outgoingOf ((loadGraph selfLoopResp initialState).1.edges.getD []) 1 =
      [{ id := 0, efrom := 1, eto := 1, label := "自指", title := "自指" }] ∧
    incomingOf ((loadGraph selfLoopResp initialState).1.edges.getD []) 1 =
      [{ id := 0, efrom := 1, eto := 1, label := "自指", title := "自指" }] := by
  exact ⟨rfl, rfl⟩

/-- C5 (amended): the neighbor computation splits the edges touching a
node id into the outgoing edges (`efrom = id`) and the incoming edges
(`eto = id`) with no omission, each sequence ordered by edge id
ascending; the two sequences are disjoint provided no touching edge is
a self-loop at that id (a self-loop appears in both). -/
theorem neighbors_partition (es : List VisEdge) (i : Nat)
    (hsort : (es.map VisEdge.id).Sorted (· < ·))
    (hself : ∀ e ∈ es, ¬ (e.efrom = i ∧ e.eto = i)) :
    (∀ e, e ∈ outgoingOf es i ↔ e ∈ es ∧ e.efrom = i) ∧
    (∀ e, e ∈ incomingOf es i ↔ e ∈ es ∧ e.eto = i) ∧
    (∀ e, ¬ (e ∈ outgoingOf es i ∧ e ∈ incomingOf es i)) ∧
    ((outgoingOf es i).map VisEdge.id).Sorted (· < ·) ∧
    ((incomingOf es i).map VisEdge.id).Sorted (· < ·) := by
  have hmo : ∀ e, e ∈ outgoingOf es i ↔ e ∈ es ∧ e.efrom = i := by
    intro e
    simp [outgoingOf, connectedEdges, List.mem_filter]
    tauto
  have hmi : ∀ e, e ∈ incomingOf es i ↔ e ∈ es ∧ e.eto = i := by
    intro e
    simp [incomingOf, connectedEdges, List.mem_filter]
    tauto
  have hso : List.Sublist (outgoingOf es i) es :=
    ((connectedEdges es i).filter_sublist).trans (es.filter_sublist)
  have hsi : List.Sublist (incomingOf es i) es :=
    ((connectedEdges es i).filter_sublist).trans (es.filter_sublist)
  refine ⟨hmo, hmi, ?_, ?_, ?_⟩
  · intro e ⟨h1, h2⟩
    exact hself e ((hmo e).1 h1).1 ⟨((hmo e).1 h1).2, ((hmi e).1 h2).2⟩
  · exact hsort.sublist (hso.map VisEdge.id)
  · exact hsort.sublist (hsi.map VisEdge.id)

/-- Witness for `neighbors_partition` on the loaded Acme/Alice graph at
node 1: its only edge is outgoing, not incoming, and both sequences are
id-sorted. -/
theorem neighbors_partition_witness :
    (({ id := 0, efrom := 1, eto := 2, label := "雇用",
        title := "雇用" } : VisEdge) ∈
        outgoingOf (loadedState.edges.getD []) 1 ↔
      ({ id := 0, efrom := 1, eto := 2, label := "雇用",
         title := "雇用" } : VisEdge) ∈ (loadedState.edges.getD []) ∧
      ({ id := 0, efrom := 1, eto := 2, label := "雇用",
         title := "雇用" } : VisEdge).efrom = 1) ∧
    ¬ (({ id := 0, efrom := 1, eto := 2, label := "雇用",
          title := "雇用" } : VisEdge) ∈
          outgoingOf (loadedState.edges.getD []) 1 ∧
       ({ id := 0, efrom := 1, eto := 2, label := "雇用",
          title := "雇用" } : VisEdge) ∈
          incomingOf (loadedState.edges.getD []) 1) ∧
    ((outgoingOf (loadedState.edges.getD []) 1).map VisEdge.id).Sorted
        (· < ·) :=
  ⟨(neighbors_partition (loadedState.edges.getD []) 1 (by decide)
      (by decide)).1 _,
   (neighbors_partition (loadedState.edges.getD []) 1 (by decide)
      (by decide)).2.2.1 _,
   (neighbors_partition (loadedState.edges.getD []) 1 (by decide)
      (by decide)).2.2.2.1⟩

/-! Claim C6. -/

/-- C6 counterexample: reloading a success-flagged but malformed payload
(missing nodes/edges arrays) over a previously loaded graph leaves the
node and edge stores alone but replaces the cached export data
`graphData` with the malformed payload — the prior snapshot is not left
completely unchanged. -/
theorem load_malformed_replaces_cached_cex :
    loadedState.graphData = some aliceResp ∧
    (loadGraph malformedResp loadedState).1.graphData = some malformedResp ∧
    ¬ (loadGraph malformedResp loadedState).1.graphData = some aliceResp := by
  exact ⟨rfl, rfl, by decide⟩

/-- C6 (amended): on a non-success response the loader alerts with the
server-supplied message (or the generic fallback) and changes nothing;
on a network/parse failure it alerts and changes nothing; on a
success-flagged payload missing its nodes or edges array the node
store, edge store, rendering network and statistics stay unchanged,
but the cached export data is already replaced by the malformed
payload before the conversion throws. -/
theorem load_failure_preserves_state (resp : ExportResult) (s : GraphState) :
    (resp.success = false →
       loadGraph resp s =
         (s, [Event.alert ("加载失败: " ++ resp.error.getD "未知错误")])) ∧
    (∀ msg, loadGraphResponse (Except.error msg) s =
       (s, [Event.alert ("加载失败: " ++ msg)])) ∧
    (resp.success = true → (resp.nodes = none ∨ resp.edges = none) →
       (loadGraph resp s).1.nodes = s.nodes ∧
       (loadGraph resp s).1.edges = s.edges ∧
       (loadGraph resp s).1.network = s.network ∧
       (loadGraph resp s).1.stats = s.stats ∧
       (loadGraph resp s).1.graphData = some resp) := by
  refine ⟨?_, ?_, ?_⟩
  · intro h
    simp [loadGraph, h]
  · intro msg
    simp [loadGraphResponse]
  · intro hs hmal
    unfold loadGraph
    simp only [hs, Bool.true_eq_false, if_false]
    cases hn : resp.nodes with
    | none => simp
    | some l =>
        cases he : resp.edges with
        | none => simp
        | some l2 =>
            rcases hmal with h | h
        
            · rw [hn] at h; cases h
            · rw [he] at h; cases h

/-- Witness for `load_failure_preserves_state` at the malformed payload
over the loaded Acme/Alice state. -/
theorem load_failure_preserves_state_witness :
    (loadGraph malformedResp loadedState).1.nodes = loadedState.nodes ∧
    (loadGraph malformedResp loadedState).1.edges = loadedState.edges ∧
    (loadGraph malformedResp loadedState).1.network = loadedState.network ∧
    (loadGraph malformedResp loadedState).1.stats = loadedState.stats ∧
    (loadGraph malformedResp loadedState).1.graphData = some malformedResp :=
  (load_failure_preserves_state malformedResp loadedState).2.2 rfl (Or.inl rfl)

/-! Claim C7. -/

/-- C7: on any well-formed export, export after load downloads exactly
the consumed export document (hence the same node and edge sets, in the
consumed structure), without changing state; the reassigned edge ids
are the sequential indices 0,1,2,... of the input order, so the
reassignment is stable and deterministic for a fixed input order. -/
theorem load_export_roundtrip (resp : ExportResult) (s : GraphState)
    (ns : List RawNode) (es : List RawEdge)
    (hs : resp.success = true) (hn : resp.nodes = some ns)
    (he : resp.edges = some es) :
    (exportGraph (loadGraph resp s).1).2 = [Event.download resp] ∧
    (exportGraph (loadGraph resp s).1).1 = (loadGraph resp s).1 ∧
    ((loadGraph resp s).1.edges.getD []).map VisEdge.id =
      List.range es.length ∧
    ((loadGraph resp s).1.edges.getD []).map
        (fun e => (e.efrom, e.eto, e.label)) =
      es.map (fun e => (e.source, e.target, e.relation)) ∧
    ((loadGraph resp s).1.nodes.getD []).map
        (fun n => (n.id, n.label, n.type, n.description)) =
      ns.map (fun n => (n.id, n.label, n.type, n.description)) := by
  have hload : (loadGraph resp s).1 =
      { s with graphData := some resp,
               nodes := some (ns.map mkVisNode),
               edges := some (es.enum.map (fun p => mkVisEdge p.1 p.2)),
               stats := some (updateStats resp ns),
               network := true } := by
    simp [loadGraph, hs, hn, he]
  refine ⟨?_, ?_, ?_, ?_, ?_⟩
  · rw [hload]; rfl
  · rw [hload]; rfl
  · rw [hload]
    show ((es.enum.map (fun p => mkVisEdge p.1 p.2)).map VisEdge.id) =
      List.range es.length
    rw [List.map_map]
    have h1 : (VisEdge.id ∘ fun p : Nat × RawEdge => mkVisEdge p.1 p.2) =
        Prod.fst := rfl
    rw [h1, List.enum_map_fst]
  · rw [hload]
    show ((es.enum.map (fun p => mkVisEdge p.1 p.2)).map
        (fun e => (e.efrom, e.eto, e.label))) =
      es.map (fun e => (e.source, e.target, e.relation))
    rw [List.map_map]
    have h2 : ((fun e : VisEdge => (e.efrom, e.eto, e.label)) ∘
        fun p : Nat × RawEdge => mkVisEdge p.1 p.2) =
        (fun e : RawEdge => (e.source, e.target, e.relation)) ∘ Prod.snd := rfl
    rw [h2, ← List.map_map, List.enum_map_snd]
  · rw [hload]
    show ((ns.map mkVisNode).map
        (fun n => (n.id, n.label, n.type, n.description))) =
      ns.map (fun n => (n.id, n.label, n.type, n.description))
    rw [List.map_map]
    rfl

/-- Witness for `load_export_roundtrip` at the Acme/Alice export. -/
theorem load_export_roundtrip_witness :
    (exportGraph (loadGraph aliceResp initialState).1).2 =
      [Event.download aliceResp] ∧
    (exportGraph (loadGraph aliceResp initialState).1).1 =
      (loadGraph aliceResp initialState).1 :=
  ⟨(load_export_roundtrip aliceResp initialState
      (aliceResp.nodes.getD []) (aliceResp.edges.getD []) rfl rfl rfl).1,
   (load_export_roundtrip aliceResp initialState
      (aliceResp.nodes.getD []) (aliceResp.edges.getD []) rfl rfl rfl).2.1⟩

/-! Claim C8. -/

/-- C8 counterexample: loading a successful export that carries two
nodes but no `nodes_count`/`edges_count` fields displays node count 0
and edge count 0 — the counts are read from the payload fields, not
recomputed from the loaded snapshot, so the displayed node count (0)
differs from the number of loaded nodes (2). -/
theorem stats_not_recomputed_cex :
    ((loadGraph noCountResp initialState).1.nodes.getD []).length = 2 ∧
    (loadGraph noCountResp initialState).1.stats =
      some { nodeCount := 0, edgeCount := 0, typeCount := 2 } ∧
    ¬ ((loadGraph noCountResp initialState).1.stats =
        some { nodeCount :=
                ((loadGraph noCountResp initialState).1.nodes.getD []).length,
               edgeCount := 0, typeCount := 2 }) := by
  exact ⟨rfl, rfl, by decide⟩

/-- C8 (amended): on every successful load the displayed node and edge
counts are taken verbatim from the payload's `nodes_count` and
`edges_count` fields (0 when absent), while only the type count is
recomputed from the loaded nodes as the number of distinct types. -/
theorem updateStats_from_payload (resp : ExportResult) (s : GraphState)
    (ns : List RawNode) (es : List RawEdge)
    (hs : resp.success = true) (hn : resp.nodes = some ns)
    (he : resp.edges = some es) :
    (loadGraph resp s).1.stats =
      some { nodeCount := resp.nodes_count.getD 0,
             edgeCount := resp.edges_count.getD 0,
             typeCount := (ns.map RawNode.type).dedup.length } := by
  simp [loadGraph, hs, hn, he, updateStats]

/-- Witness for `updateStats_from_payload` at the count-less export. -/
theorem updateStats_from_payload_witness :
    (loadGraph noCountResp initialState).1.stats =
      some { nodeCount := noCountResp.nodes_count.getD 0,
             edgeCount := noCountResp.edges_count.getD 0,
             typeCount :=
               (((noCountResp.nodes.getD []).map RawNode.type)).dedup.length } :=
  updateStats_from_payload noCountResp initialState
    (noCountResp.nodes.getD []) (noCountResp.edges.getD []) rfl rfl rfl

/-! Claim C9. -/

/-- C9 counterexample: requesting a reload while one is already pending
is not a no-op — `loadGraph` consults no in-flight flag, so the second
request issues a second fetch and two requests are in flight at once. -/
theorem reload_not_coalesced_cex :
    (startReload (startReload initLoader)).pending = 2 ∧
    ¬ (startReload (startReload initLoader) = startReload initLoader) := by
  exact ⟨rfl, by decide⟩

/-- C9 (amended): the loader performs no in-flight guard: every reload
request unconditionally issues a fetch, incrementing the number of
pending requests and leaving the graph untouched, and each completion
independently runs the full response handler on the state current at
completion time. -/
theorem startReload_always_fetches (s : LoaderState)
    (resp : Except String ExportResult) :
    (startReload s).pending = s.pending + 1 ∧
    (startReload s).graph = s.graph ∧
    (completeReload resp (startReload s)).1.graph =
      (loadGraphResponse resp s.graph).1 ∧
    (completeReload resp (startReload s)).1.pending = s.pending :=
  ⟨rfl, rfl, rfl, rfl⟩

/-- Witness for `startReload_always_fetches`: a second request on top of
a pending one yields two in-flight fetches. -/
theorem startReload_always_fetches_witness :
    (startReload (startReload initLoader)).pending =
      (startReload initLoader).pending + 1 ∧
    (startReload (startReload initLoader)).graph =
      (startReload initLoader).graph ∧
    (completeReload (Except.ok aliceResp)
        (startReload (startReload initLoader))).1.graph =
      (loadGraphResponse (Except.ok aliceResp)
        (startReload initLoader).graph).1 ∧
    (completeReload (Except.ok aliceResp)
        (startReload (startReload initLoader))).1.pending =
      (startReload initLoader).pending :=
  startReload_always_fetches (startReload initLoader) (Except.ok aliceResp)

/-! Claim C10. -/

/-- C10: before the first successful load every interaction entry point
is a safe no-op: search with any query leaves the state unchanged and
emits no event, fit leaves the state unchanged and emits no event, and
export leaves the state unchanged and emits no download. -/
theorem pre_load_interactions_noop (q : String) :
    searchEntity q initialState = (initialState, []) ∧
    fitGraph initialState = (initialState, []) ∧
    (exportGraph initialState).1 = initialState ∧
    (exportGraph initialState).2.filter isDownloadEv = [] := by
  refine ⟨?_, rfl, rfl, rfl⟩
  unfold searchEntity
  by_cases h : lcase (jsTrim q) = "" <;> simp [h, initialState]

/-- Witness for `pre_load_interactions_noop` at a concrete query. -/
theorem pre_load_interactions_noop_witness :
    searchEntity "alice" initialState = (initialState, []) ∧
    fitGraph initialState = (initialState, []) ∧
    (exportGraph initialState).1 = initialState ∧
    (exportGraph initialState).2.filter isDownloadEv = [] :=
  pre_load_interactions_noop "alice"
